import Mathlib

/-!
Verification of the duplex session relay of demo-field-service-tlc.

The development shallowly embeds the three source files:
  * `server-telecentro/server.js` — the client/upstream relay, its config
    gate, the upstream receive loop (`receiveFromGemini`) and the tool
    dispatcher (`handleToolCall`),
  * the `GeminiConnection` class (gemini-connection.js) — the upstream
    session with its `isOpen` / `sendText` / `sendImage` / `sendContinue` /
    `sendEnd` / `receive` operations,
  * the `AudioStreamer` class (audio-streamer.ts) — the client-side
    playback buffer with stall detection and disposal.

Stateful code is embedded as explicit state passing: each operation maps a
state (and its inputs) to a new state together with the list of observable
effects it produced, in order.  Transmissions are values of explicit
message types mirroring the JSON payloads the source constructs.
-/

namespace Relay

/-! ## Upstream (Gemini-bound) message payloads -/

/-- One part of a user turn as built by `sendText` / `sendImage`:
either a `text` part or an `inline_data` part with a mime type. -/
structure UPart where
  text : Option String
  inlineMimeType : Option String
  inlineData : Option String
  deriving DecidableEq, Repr

/-- One turn of a `client_content` envelope: `{ role, parts }`. -/
structure UTurn where
  role : String
  parts : List UPart
  deriving DecidableEq, Repr

/-- The `client_content` envelope `{ turns, turn_complete }`. -/
structure ClientContent where
  turns : List UTurn
  turn_complete : Bool
  deriving DecidableEq, Repr

/-- The `error` object of a function response: `{ message }`. -/
structure FRError where
  message : String
  deriving DecidableEq, Repr

/-- One entry of `tool_response.function_responses`. -/
structure FunctionResponse where
  id : String
  name : String
  rendered : Bool
  state : String
  error : Option FRError
  deriving DecidableEq, Repr

/-- A JSON message sent to the upstream Gemini socket. -/
inductive UpstreamMsg where
  | clientContent (c : ClientContent)
  | toolResponse (rs : List FunctionResponse)
  deriving DecidableEq, Repr

/-- Helper: a plain text part. -/
def textPart (t : String) : UPart :=
  { text := some t, inlineMimeType := none, inlineData := none }

/-- Helper: an `inline_data` part. -/
def inlinePart (mime data : String) : UPart :=
  { text := none, inlineMimeType := some mime, inlineData := some data }

/-- The default empty-user-turn envelope built by `sendContinue` /
`sendEnd` when the caller supplies no envelope:
`{ turns: [{role:"user", parts:[]}], turn_complete: tc }`. -/
def defaultTurn (tc : Bool) : ClientContent :=
  { turns := [{ role := "user", parts := [] }], turn_complete := tc }

/-! ## GeminiConnection (gemini-connection.js) -/

/-- `ws.readyState` of the underlying WebSocket. -/
inductive WsReadyState where
  | connecting
  | opened
  | closing
  | wsClosed
  deriving DecidableEq, Repr

/-- The mutable state of a `GeminiConnection` that its send/receive
operations consult: the explicit `connected` flag (set on open, cleared
on close) and the transport's own ready state. -/
structure GCState where
  connected : Bool
  wsReady : WsReadyState
  deriving DecidableEq, Repr

/-- `isOpen()`: `this.connected && this.ws?.readyState === WebSocket.OPEN`. -/
def GCState.isOpen (st : GCState) : Bool :=
  st.connected && decide (st.wsReady = WsReadyState.opened)

/-- The error a send/receive operation rejects with. -/
inductive GError where
  | notConnected
  deriving DecidableEq, Repr

/-- `_sendJson(obj)`: throws when `isOpen()` is false, otherwise
transmits the message. -/
def sendJson (st : GCState) (m : UpstreamMsg) : Except GError UpstreamMsg :=
  if st.isOpen then Except.ok m else Except.error GError.notConnected

/-- `sendText(text)`: one user turn with the single text part, wrapped in
a `client_content` envelope with `turn_complete: true`, passed to
`_sendJson`. -/
def sendText (st : GCState) (text : String) : Except GError UpstreamMsg :=
  sendJson st (UpstreamMsg.clientContent
    { turns := [{ role := "user", parts := [textPart text] }]
      turn_complete := true })

/-- `sendImage(imageData)`: one user turn with the fixed text part
"Describeme la imagen" followed by an `inline_data` part of mime type
"image/jpeg" carrying the payload, `turn_complete: true`. -/
def sendImage (st : GCState) (imageData : String) : Except GError UpstreamMsg :=
  sendJson st (UpstreamMsg.clientContent
    { turns := [{ role := "user"
                  parts := [textPart "Describeme la imagen",
                            inlinePart "image/jpeg" imageData] }]
      turn_complete := true })

/-- `sendContinue(clientContent?)`: forwards a caller-supplied envelope
unchanged, or the default empty user turn with `turn_complete: false`. -/
def sendContinue (st : GCState) (env : Option ClientContent) :
    Except GError UpstreamMsg :=
  sendJson st (UpstreamMsg.clientContent (env.getD (defaultTurn false)))

/-- `sendEnd(clientContent?)`: forwards a caller-supplied envelope
unchanged, or the default empty user turn with `turn_complete: true`. -/
def sendEnd (st : GCState) (env : Option ClientContent) :
    Except GError UpstreamMsg :=
  sendJson st (UpstreamMsg.clientContent (env.getD (defaultTurn true)))

/-- The transport event that settles one pending `receive()`: a data
message, a socket error, or the socket closing. -/
inductive TransportEvent where
  | msg (d : String)
  | err (e : String)
  | closeEv
  deriving DecidableEq, Repr

/-- What a `receive()` call can reject with: the up-front not-open check,
or the socket error it was settled by. -/
inductive RecvError where
  | notOpenAtCall
  | wsError (e : String)
  deriving DecidableEq, Repr

/-- `receive()`: throws when `isOpen()` is false; otherwise the promise
is settled by the next transport event — a frame resolves with that
frame, an error rejects with it, and a close resolves with `null`
(embedded as `none`), not an error. -/
def receive (st : GCState) (ev : TransportEvent) :
    Except RecvError (Option String) :=
  if st.isOpen then
    match ev with
    | TransportEvent.msg d => Except.ok (some d)
    | TransportEvent.err e => Except.error (RecvError.wsError e)
    | TransportEvent.closeEv => Except.ok none
  else Except.error RecvError.notOpenAtCall

/-! ## Events pushed to the client and relay effects (server.js) -/

/-- A JSON event the relay pushes to the client socket via
`sendJsonSafe`.  `serverContentInterrupted` is the interruption event
`{type:"serverContent", serverContent:{interrupted:true, turnComplete:true}}`;
`serverContentNotComplete` is `{type:"serverContent",
serverContent:{turnComplete:false}}`; `turnCompleteEvent` is
`{type:"turn_complete", data:true}`. -/
inductive ClientEvent where
  | geminiReady
  | serverContentInterrupted
  | serverContentNotComplete
  | textEvent (data : String) (turnComplete : Bool)
  | turnCompleteEvent
  | toolText (data : String)
  | endCallEvent (data : String)
  deriving DecidableEq, Repr

/-- An observable effect of the relay: a JSON message pushed to the
client, a JSON message sent to the upstream socket, or closing the
client socket with a status code. -/
inductive Effect where
  | toClient (e : ClientEvent)
  | toUpstream (m : UpstreamMsg)
  | closeClient (code : Nat)
  deriving DecidableEq, Repr

/-! ## Upstream frames (what `receiveFromGemini` parses) -/

/-- `fc.args` of a function call; the two registered tools read
`args?.text` and `args?.reason`. -/
structure FCArgs where
  text : Option String
  reason : Option String
  deriving DecidableEq, Repr

/-- One entry of `toolCall.functionCalls`: `{id, name, args}`, where
`args` may be absent. -/
structure FunctionCall where
  id : String
  name : String
  args : Option FCArgs
  deriving DecidableEq, Repr

/-- One part of `serverContent.modelTurn.parts`.  Non-text parts
(inline binary data) are recognized but never forwarded. -/
structure GPart where
  text : Option String
  inlineData : Option String
  deriving DecidableEq, Repr

/-- The `serverContent` object of an upstream frame. -/
structure ServerContent where
  interrupted : Bool
  modelTurn : Option (List GPart)
  turnComplete : Bool
  deriving DecidableEq, Repr

/-- A parsed upstream frame as classified by `receiveFromGemini`:
`toolCall` is `some fcs` exactly when `response.toolCall.functionCalls`
is an array. -/
structure GeminiFrame where
  toolCall : Option (List FunctionCall)
  serverContent : Option ServerContent
  interrupted : Bool
  turnComplete : Bool
  deriving DecidableEq, Repr

/-- `response.interrupted || serverContent?.interrupted`. -/
def frameInterrupted (r : GeminiFrame) : Bool :=
  r.interrupted || (r.serverContent.map ServerContent.interrupted).getD false

/-- `serverContent?.turnComplete` (false when `serverContent` absent). -/
def scTurnComplete (r : GeminiFrame) : Bool :=
  (r.serverContent.map ServerContent.turnComplete).getD false

/-! ## Tool dispatcher (handleToolCall + functions.js) -/

/-- The registered tool handlers of `toolHandlers` in functions.js. -/
inductive ToolHandler where
  | writeText
  | endCallH
  deriving DecidableEq, Repr

/-- `toolHandlers[name]`: lookup of a handler by tool name. -/
def toolHandlerFor (name : String) : Option ToolHandler :=
  if name = "write_text" then some ToolHandler.writeText
  else if name = "end_call" then some ToolHandler.endCallH
  else none

/-- The acknowledgment function response both registered handlers send:
`{id, name, response: {rendered: true, state: "continue conversation"}}`. -/
def ackResponse (fc : FunctionCall) : FunctionResponse :=
  { id := fc.id, name := fc.name, rendered := true
    state := "continue conversation", error := none }

/-- The synthesized response for an unrecognized tool name, carrying
`error.message = "Tool not implemented: <name>"`. -/
def unimplementedResponse (fc : FunctionCall) : FunctionResponse :=
  { id := fc.id, name := fc.name, rendered := true
    state := "continue conversation"
    error := some { message := "Tool not implemented: " ++ fc.name } }

/-- `args?.text || ""` read by the write_text handler. -/
def argText (fc : FunctionCall) : String :=
  (fc.args.bind FCArgs.text).getD ""

/-- `args?.reason || "Call ended by AI"` read by the end_call handler. -/
def argReason (fc : FunctionCall) : String :=
  (fc.args.bind FCArgs.reason).getD "Call ended by AI"

/-- `handleToolCall(fc, clientWs, geminiConn, clientId)` (server.js):
unknown names get the synthesized error response via `_sendJson`;
`write_text` / `end_call` send the acknowledgment response first and
then push their display event to the client (`sendJsonSafe` silently
skips the push when the client socket is not open).  A throw of
`_sendJson` (upstream not open) is caught, so the handler produces no
further effect. -/
def handleToolCall (gc : GCState) (clientOpen : Bool) (fc : FunctionCall) :
    List Effect :=
  match toolHandlerFor fc.name with
  | none =>
    match sendJson gc (UpstreamMsg.toolResponse [unimplementedResponse fc]) with
    | Except.ok m => [Effect.toUpstream m]
    | Except.error _ => []
  | some ToolHandler.writeText =>
    match sendJson gc (UpstreamMsg.toolResponse [ackResponse fc]) with
    | Except.ok m =>
      Effect.toUpstream m ::
        (if clientOpen then [Effect.toClient (ClientEvent.toolText (argText fc))]
         else [])
    | Except.error _ => []
  | some ToolHandler.endCallH =>
    match sendJson gc (UpstreamMsg.toolResponse [ackResponse fc]) with
    | Except.ok m =>
      Effect.toUpstream m ::
        (if clientOpen then
           [Effect.toClient (ClientEvent.endCallEvent (argReason fc))]
         else [])
    | Except.error _ => []

/-- Step 1 of `receiveFromGemini`'s frame handling: when
`response.toolCall.functionCalls` is an array, dispatch every entry in
array order. -/
def toolCallEffects (gc : GCState) (clientOpen : Bool) (r : GeminiFrame) :
    List Effect :=
  match r.toolCall with
  | some fcs => (fcs.map (handleToolCall gc clientOpen)).flatten
  | none => []

/-- The per-part forwarding of `serverContent.modelTurn.parts`: each part
with a (truthy) text is forwarded trimmed, carrying
`serverContent.turnComplete`; the loop stops (and `sendJsonSafe` skips)
when the client socket is not open. -/
def modelTurnEffects (clientOpen : Bool) (r : GeminiFrame) : List Effect :=
  match r.serverContent with
  | none => []
  | some sc =>
    match sc.modelTurn with
    | none => []
    | some parts =>
      (if !r.turnComplete then
         (if clientOpen then [Effect.toClient ClientEvent.serverContentNotComplete]
          else [])
       else []) ++
      (if clientOpen then
         parts.filterMap (fun p =>
           match p.text with
           | some t =>
             if t = "" then none   -- `if (p.text)`: the empty string is falsy
             else some (Effect.toClient (ClientEvent.textEvent t.trim sc.turnComplete))
           | none => none)
       else [])

/-- The body of one `receiveFromGemini` iteration on a parsed frame
(server.js lines 216–287): tool calls are dispatched first; then, if the
frame carries the interruption flag (top level or nested), the relay
pushes the interruption event, force-sends `sendEnd()` upstream, pushes
an explicit `turn_complete` event, and skips the rest of the frame (a
`sendEnd` throw aborts the rest of the forwarding block); otherwise the
model-turn parts are forwarded and a turn-completion flag is mirrored as
a `turn_complete` event. -/
def processFrame (gc : GCState) (clientOpen : Bool) (r : GeminiFrame) :
    List Effect :=
  toolCallEffects gc clientOpen r ++
    (if frameInterrupted r then
      (if clientOpen then [Effect.toClient ClientEvent.serverContentInterrupted]
       else []) ++
      (match sendEnd gc none with
       | Except.ok m =>
         Effect.toUpstream m ::
           (if clientOpen then [Effect.toClient ClientEvent.turnCompleteEvent]
            else [])
       | Except.error _ => [])
    else
      modelTurnEffects clientOpen r ++
        (if r.turnComplete || scTurnComplete r then
          (if clientOpen then [Effect.toClient ClientEvent.turnCompleteEvent]
           else [])
        else []))

/-! ## Session relay: client message handler (server.js lines 53–162) -/

/-- A frame arriving from the client socket, after `JSON.parse`.
`config` carries whether the attached config object is valid (a non-null
object) and whether the subsequent `geminiConn.connect()` succeeds —
both external facts the handler branches on.  `malformed` stands for a
frame whose `JSON.parse` throws (caught and logged, nothing happens). -/
inductive ClientMsg where
  | config (valid : Bool) (connectOk : Bool)
  | text (d : String)
  | image (d : String)
  | cont (env : Option ClientContent)
  | endMsg (env : Option ClientContent)
  | unknown
  | malformed
  deriving DecidableEq, Repr

/-- Whether a client frame parsed at all. -/
def ClientMsg.wellFormed : ClientMsg → Bool
  | ClientMsg.malformed => false
  | _ => true

/-- Whether a client frame has kind `"config"`. -/
def ClientMsg.isConfig : ClientMsg → Bool
  | ClientMsg.config _ _ => true
  | _ => false

/-- Whether a client frame is a config frame that validates and whose
upstream connect succeeds. -/
def ClientMsg.isSuccessfulConfig : ClientMsg → Bool
  | ClientMsg.config valid connectOk => valid && connectOk
  | _ => false

/-- The per-session state the client message handler closes over:
the `configReceived` flag, the `GeminiConnection` state, and whether the
relay has closed the client socket. -/
structure SessionState where
  configReceived : Bool
  gemini : GCState
  closed : Bool
  deriving DecidableEq, Repr

/-- The state of a session right after the client connects:
no config yet, a fresh unconnected `GeminiConnection`, socket open. -/
def initSession : SessionState :=
  { configReceived := false
    gemini := { connected := false, wsReady := WsReadyState.connecting }
    closed := false }

/-- One invocation of the `clientWs.on("message")` handler.  Before
config: any parsed non-config frame closes the socket with code 1011; a
config frame sets `configReceived` and then either connects the upstream
(emitting `gemini_ready`) or closes with 1011 on validation/connect
failure.  After config: `text`/`image` are forwarded through
`sendText`/`sendImage` only when `isOpen()`, `continue`/`end` map to
`sendContinue`/`sendEnd`, anything else is logged and ignored. -/
def handleClientMessage (st : SessionState) (m : ClientMsg) :
    SessionState × List Effect :=
  match m with
  | ClientMsg.malformed => (st, [])
  | _ =>
    if st.configReceived = false then
      match m with
      | ClientMsg.config valid connectOk =>
        if valid && connectOk then
          ({ st with configReceived := true
                     gemini := { connected := true, wsReady := WsReadyState.opened } },
           [Effect.toClient ClientEvent.geminiReady])
        else
          ({ st with configReceived := true, closed := true },
           [Effect.closeClient 1011])
      | _ => ({ st with closed := true }, [Effect.closeClient 1011])
    else
      match m with
      | ClientMsg.text d =>
        if st.gemini.isOpen then
          match sendText st.gemini d with
          | Except.ok msg => (st, [Effect.toUpstream msg])
          | Except.error _ => (st, [])
        else (st, [])
      | ClientMsg.image d =>
        if st.gemini.isOpen then
          match sendImage st.gemini d with
          | Except.ok msg => (st, [Effect.toUpstream msg])
          | Except.error _ => (st, [])
        else (st, [])
      | ClientMsg.cont env =>
        if st.gemini.isOpen then
          match sendContinue st.gemini env with
          | Except.ok msg => (st, [Effect.toUpstream msg])
          | Except.error _ => (st, [])
        else (st, [])
      | ClientMsg.endMsg env =>
        if st.gemini.isOpen then
          match sendEnd st.gemini env with
          | Except.ok msg => (st, [Effect.toUpstream msg])
          | Except.error _ => (st, [])
        else (st, [])
      | _ => (st, [])

/-- Run the client message handler over a sequence of incoming frames,
in order; once the relay has closed the client socket no further frames
are delivered.  Returns the concatenated effect trace. -/
def runSession (st : SessionState) : List ClientMsg → List Effect
  | [] => []
  | m :: ms =>
    if st.closed then []
    else
      let r := handleClientMessage st m
      r.2 ++ runSession r.1 ms

/-- Whether an effect transmits a content frame (a `client_content`
envelope — the image of `text`/`image`/`continue`/`end`) upstream. -/
def isContentUpstream : Effect → Bool
  | Effect.toUpstream (UpstreamMsg.clientContent _) => true
  | _ => false

/-- The subsequence of events an effect trace pushes to the client. -/
def toClientTrace (effs : List Effect) : List ClientEvent :=
  effs.filterMap (fun e =>
    match e with
    | Effect.toClient c => some c
    | _ => none)

/-- The function responses one effect carries upstream. -/
def respPart : Effect → List FunctionResponse
  | Effect.toUpstream (UpstreamMsg.toolResponse rs) => rs
  | _ => []

/-- All function responses an effect trace sends upstream, in order. -/
def toolResponsesOf (effs : List Effect) : List FunctionResponse :=
  (effs.map respPart).flatten

/-- The single response the dispatcher owes a call: the plain
acknowledgment for a registered handler, the synthesized
"Tool not implemented" error response otherwise. -/
def expectedResponse (fc : FunctionCall) : FunctionResponse :=
  match toolHandlerFor fc.name with
  | some _ => ackResponse fc
  | none => unimplementedResponse fc

end Relay

namespace Audio

/-!
## AudioStreamer (audio-streamer.ts)

The playback buffer is embedded as explicit state passing.  Times
(`AudioContext.currentTime`, in seconds) and decoded samples are
rationals; a decoded buffer is its list of Float32 samples (each an
exact int16/32768, so rationals model the floats exactly).  Each method
returns the new state and the list of externally observable effects: a
source node started, a user callback fired (`dispose()` replaces both
callbacks with no-ops, after which nothing user-visible fires), the
stall timer being armed, and the audio context being resumed.
-/

/-- The state of an `AudioStreamer` instance.  `hasCompleteCb` /
`hasInterruptionCb` record whether the hosting code's callbacks are
still installed (dispose clears them back to no-ops);
`timeoutArmed` records a pending `playbackTimeout`; `gainConnected`
whether the gain node is connected to the destination; `ctxSuspended`
the `AudioContext` state. -/
structure Streamer where
  audioQueue : List (List ℚ)
  isPlaying : Bool
  currentSource : Option (List ℚ)
  gain : ℚ
  gainConnected : Bool
  timeoutArmed : Bool
  lastPlaybackTime : ℚ
  isDisposed : Bool
  ctxSuspended : Bool
  hasCompleteCb : Bool
  hasInterruptionCb : Bool
  deriving DecidableEq, Repr

/-- Externally observable effects of the streamer. -/
inductive AEffect where
  | startedSource (buf : List ℚ)
  | onCompleteCalled
  | onInterruptionCalled
  | timerArmed
  | ctxResumed
  deriving DecidableEq, Repr

/-- The fixed stall-detection interval of `checkPlaybackStatus`
(`setTimeout(..., 1000)`), in milliseconds. -/
def stallCheckIntervalMs : Nat := 1000

/-- PCM16 → Float32 conversion: `float32Array[i] = chunk[i] / 32768`. -/
def pcm16ToFloat (chunk : List ℤ) : List ℚ :=
  chunk.map (fun s => (s : ℚ) / 32768)

/-- `playNextBuffer()`: with a disposed instance or an empty queue,
clears `isPlaying` and fires `onComplete`; otherwise dequeues the head
segment, records the playback start time, installs it as the current
source and starts it. -/
def playNextBuffer (st : Streamer) (now : ℚ) : Streamer × List AEffect :=
  if st.isDisposed || st.audioQueue.isEmpty then
    ({ st with isPlaying := false },
     if st.hasCompleteCb then [AEffect.onCompleteCalled] else [])
  else
    match st.audioQueue with
    | [] => ({ st with isPlaying := false },
             if st.hasCompleteCb then [AEffect.onCompleteCalled] else [])
    | b :: rest =>
      ({ st with lastPlaybackTime := now, audioQueue := rest
                 currentSource := some b },
       [AEffect.startedSource b])

/-- `checkPlaybackStatus()` (the arming method): clears any pending
timeout, returns without arming when disposed, otherwise arms the
1-second stall timer. -/
def armCheck (st : Streamer) : Streamer × List AEffect :=
  if st.isDisposed then ({ st with timeoutArmed := false }, [])
  else ({ st with timeoutArmed := true }, [AEffect.timerArmed])

/-- The stall-detection timer callback, firing `stallCheckIntervalMs`
after being armed: if more than one second has passed since the last
playback start while the queue is non-empty and `isPlaying`, it forces a
manual `playNextBuffer()`; then it re-arms itself only while still
playing and not disposed. -/
def checkTick (st0 : Streamer) (now : ℚ) : Streamer × List AEffect :=
  let st := { st0 with timeoutArmed := false }
  let r :=
    if now - st.lastPlaybackTime > 1 ∧ st.audioQueue ≠ [] ∧ st.isPlaying then
      playNextBuffer st now
    else (st, [])
  if r.1.isPlaying && !r.1.isDisposed then
    let a := armCheck r.1
    (a.1, r.2 ++ a.2)
  else r

/-- `addPCM16(chunk)`: no-op on a null chunk or a disposed instance;
otherwise resumes a suspended context, resets the gain to 1, converts
and enqueues the chunk, starts playback of the head segment when not
already playing, and (re)arms the stall timer. -/
def addPCM16 (st : Streamer) (chunk : Option (List ℤ)) (now : ℚ) :
    Streamer × List AEffect :=
  match chunk with
  | none => (st, [])
  | some c =>
    if st.isDisposed then (st, [])
    else
      let resumeEffs := if st.ctxSuspended then [AEffect.ctxResumed] else []
      let st1 := { st with ctxSuspended := false, gain := 1
                           audioQueue := st.audioQueue ++ [pcm16ToFloat c] }
      let r :=
        if st1.isPlaying then (st1, ([] : List AEffect))
        else playNextBuffer { st1 with isPlaying := true, lastPlaybackTime := now } now
      let a := armCheck r.1
      (a.1, resumeEffs ++ r.2 ++ a.2)

/-- `stop()`: clears `isPlaying`, cancels the stall timer, empties the
queue, stops and drops the current source, sets the gain to 0 (without
disconnecting the node) and fires `onInterruption`. -/
def stop (st : Streamer) : Streamer × List AEffect :=
  ({ st with isPlaying := false, timeoutArmed := false, audioQueue := []
             currentSource := none, gain := 0 },
   if st.hasInterruptionCb then [AEffect.onInterruptionCalled] else [])

/-- `resume()`: no-op when disposed; otherwise resumes a suspended
context, reconnects the gain node and restores the gain to 1. -/
def resume (st : Streamer) : Streamer × List AEffect :=
  if st.isDisposed then (st, [])
  else
    ({ st with ctxSuspended := false, gainConnected := true, gain := 1 },
     if st.ctxSuspended then [AEffect.ctxResumed] else [])

/-- `dispose()`: no-op when already disposed; otherwise marks the
instance disposed, runs `stop()` (whose `onInterruption` still fires),
clears both callbacks, the queue and the current source, disconnects
the gain node and cancels the stall timer. -/
def dispose (st : Streamer) : Streamer × List AEffect :=
  if st.isDisposed then (st, [])
  else
    let r := stop { st with isDisposed := true }
    ({ r.1 with hasCompleteCb := false, hasInterruptionCb := false
                audioQueue := [], currentSource := none
                gainConnected := false, timeoutArmed := false },
     r.2)

end Audio

namespace Relay

/-! ## Theorems -/

theorem handle_no_content (st : SessionState) (m : ClientMsg)
    (hconn : st.gemini.connected = false)
    (hm : m.isSuccessfulConfig = false) :
    (handleClientMessage st m).1.gemini.connected = false ∧
    ∀ e ∈ (handleClientMessage st m).2, isContentUpstream e = false := by
  have hopen : st.gemini.isOpen = false := by
    simp [GCState.isOpen, hconn]
  cases m with
  | config valid connectOk =>
    have hvc : (valid && connectOk) = false := hm
    by_cases hc : st.configReceived = false <;>
      simp [handleClientMessage, hc, hvc, hconn, isContentUpstream]
  | text d =>
    by_cases hc : st.configReceived = false <;>
      simp [handleClientMessage, hc, hopen, hconn, isContentUpstream]
  | image d =>
    by_cases hc : st.configReceived = false <;>
      simp [handleClientMessage, hc, hopen, hconn, isContentUpstream]
  | cont env =>
    by_cases hc : st.configReceived = false <;>
      simp [handleClientMessage, hc, hopen, hconn, isContentUpstream]
  | endMsg env =>
    by_cases hc : st.configReceived = false <;>
      simp [handleClientMessage, hc, hopen, hconn, isContentUpstream]
  | unknown =>
    by_cases hc : st.configReceived = false <;>
      simp [handleClientMessage, hc, hconn, isContentUpstream]
  | malformed =>
    simp [handleClientMessage, hconn]

theorem runSession_no_content (ms : List ClientMsg) :
    ∀ st : SessionState, st.gemini.connected = false →
    (∀ x ∈ ms, x.isSuccessfulConfig = false) →
    ∀ e ∈ runSession st ms, isContentUpstream e = false := by
  induction ms with
  | nil => intro st _ _ e he; simp [runSession] at he
  | cons m rest ih =>
    intro st hconn hms e he
    by_cases hc : st.closed
    · simp [runSession, hc] at he
    · simp only [runSession, hc, if_neg, Bool.false_eq_true, ite_false] at he
      have hstep := handle_no_content st m hconn
        (hms m (List.mem_cons_self m rest))
      rcases List.mem_append.mp he with h1 | h2
      · exact hstep.2 e h1
      · exact ih (handleClientMessage st m).1 hstep.1
          (fun x hx => hms x (List.mem_cons_of_mem m hx)) e h2

/-- C1: (a) when the first parsed frame of a session is not a config
frame, the relay's whole effect trace is a single abnormal close of the
client socket with code 1011 — nothing is ever forwarded upstream; and
(b) along any sequence of client frames containing no successful config
exchange, no content frame is ever forwarded upstream. -/
theorem first_frame_must_be_config :
    (∀ (m : ClientMsg) (ms : List ClientMsg),
       m.wellFormed = true → m.isConfig = false →
       runSession initSession (m :: ms) = [Effect.closeClient 1011]) ∧
    (∀ ms : List ClientMsg,
       (∀ x ∈ ms, x.isSuccessfulConfig = false) →
       ∀ e ∈ runSession initSession ms, isContentUpstream e = false) := by
  constructor
  · intro m ms hwf hcfg
    have hstep : handleClientMessage
        (SessionState.mk false (GCState.mk false WsReadyState.connecting) false) m =
        (SessionState.mk false (GCState.mk false WsReadyState.connecting) true,
         [Effect.closeClient 1011]) := by
      cases m <;> simp_all [ClientMsg.wellFormed, ClientMsg.isConfig,
        handleClientMessage]
    have hrest : runSession
        (SessionState.mk false (GCState.mk false WsReadyState.connecting) true)
        ms = [] := by
      cases ms <;> simp [runSession]
    simp [runSession, initSession, hstep, hrest]
  · intro ms hms
    exact runSession_no_content ms initSession rfl hms

/-- Witness for C1: a session whose first frame is a text frame closes
with 1011, and a session of only content frames forwards nothing
upstream. -/
theorem first_frame_must_be_config_witness :
    ((ClientMsg.text "hola").wellFormed = true ∧
     (ClientMsg.text "hola").isConfig = false ∧
     runSession initSession [ClientMsg.text "hola", ClientMsg.image "I"] =
       [Effect.closeClient 1011]) ∧
    ((∀ x ∈ [ClientMsg.text "hola", ClientMsg.cont none],
        x.isSuccessfulConfig = false) ∧
     ∀ e ∈ runSession initSession [ClientMsg.text "hola", ClientMsg.cont none],
       isContentUpstream e = false) :=
  ⟨⟨rfl, rfl,
    first_frame_must_be_config.1 (ClientMsg.text "hola") [ClientMsg.image "I"]
      rfl rfl⟩,
   ⟨by decide,
    first_frame_must_be_config.2 [ClientMsg.text "hola", ClientMsg.cont none]
      (by decide)⟩⟩

/-- C5: on an open connection, `sendText text` transmits a
`client_content` envelope with `turn_complete = true` whose single user
turn holds exactly one part carrying `text`; on a closed connection both
`sendText` and `sendImage` fail with the not-connected error and
transmit nothing. -/
theorem sendText_turn_envelope (st : GCState) (t p : String) :
    (st.isOpen = true →
      sendText st t = Except.ok (UpstreamMsg.clientContent
        { turns := [{ role := "user", parts := [textPart t] }]
          turn_complete := true })) ∧
    (st.isOpen = false →
      sendText st t = Except.error GError.notConnected ∧
      sendImage st p = Except.error GError.notConnected) := by
  refine ⟨fun h => ?_, fun h => ⟨?_, ?_⟩⟩ <;>
    simp [sendText, sendImage, sendJson, h]

/-- Witness for C5 at a concrete open connection and the text "hola". -/
theorem sendText_turn_envelope_witness :
    (GCState.mk true WsReadyState.opened).isOpen = true ∧
    sendText (GCState.mk true WsReadyState.opened) "hola" =
      Except.ok (UpstreamMsg.clientContent
        { turns := [{ role := "user", parts := [textPart "hola"] }]
          turn_complete := true }) :=
  ⟨rfl, (sendText_turn_envelope (GCState.mk true WsReadyState.opened)
          "hola" "p").1 rfl⟩

/-- C9: on an open connection, `sendImage p` transmits a `client_content`
envelope with `turn_complete = true` whose single user turn has exactly
two parts in order: the fixed text "Describeme la imagen" followed by an
`inline_data` part of mime type "image/jpeg" carrying `p`. -/
theorem sendImage_two_parts (st : GCState) (p : String) :
    st.isOpen = true →
    sendImage st p = Except.ok (UpstreamMsg.clientContent
      { turns := [{ role := "user"
                    parts := [textPart "Describeme la imagen",
                              inlinePart "image/jpeg" p] }]
        turn_complete := true }) := by
  intro h
  simp [sendImage, sendJson, h]

/-- Witness for C9 at a concrete open connection and payload. -/
theorem sendImage_two_parts_witness :
    (GCState.mk true WsReadyState.opened).isOpen = true ∧
    sendImage (GCState.mk true WsReadyState.opened) "QkFTRTY0" =
      Except.ok (UpstreamMsg.clientContent
        { turns := [{ role := "user"
                      parts := [textPart "Describeme la imagen",
                                inlinePart "image/jpeg" "QkFTRTY0"] }]
          turn_complete := true }) :=
  ⟨rfl, sendImage_two_parts (GCState.mk true WsReadyState.opened) "QkFTRTY0" rfl⟩

/-- C6: on an open connection, one `receive()` is settled by the next
transport event in exactly one of three mutually exclusive ways (the
three `TransportEvent` constructors are disjoint): a frame resolves with
that frame, a transport error rejects with it, and a transport close
resolves successfully with the empty result `none`, not an error. -/
theorem receive_three_outcomes (st : GCState) (ev : TransportEvent) :
    st.isOpen = true →
    ((∃ d, ev = TransportEvent.msg d ∧ receive st ev = Except.ok (some d)) ∨
     (∃ e, ev = TransportEvent.err e ∧
        receive st ev = Except.error (RecvError.wsError e)) ∨
     (ev = TransportEvent.closeEv ∧ receive st ev = Except.ok none)) := by
  intro h
  cases ev with
  | msg d => exact Or.inl ⟨d, rfl, by simp [receive, h]⟩
  | err e => exact Or.inr (Or.inl ⟨e, rfl, by simp [receive, h]⟩)
  | closeEv => exact Or.inr (Or.inr ⟨rfl, by simp [receive, h]⟩)

/-- Witness for C6: a transport close settles a concrete open
`receive()` with the empty result. -/
theorem receive_three_outcomes_witness :
    (GCState.mk true WsReadyState.opened).isOpen = true ∧
    ((∃ d, TransportEvent.closeEv = TransportEvent.msg d ∧
        receive (GCState.mk true WsReadyState.opened) TransportEvent.closeEv =
          Except.ok (some d)) ∨
     (∃ e, TransportEvent.closeEv = TransportEvent.err e ∧
        receive (GCState.mk true WsReadyState.opened) TransportEvent.closeEv =
          Except.error (RecvError.wsError e)) ∨
     (TransportEvent.closeEv = TransportEvent.closeEv ∧
        receive (GCState.mk true WsReadyState.opened) TransportEvent.closeEv =
          Except.ok none)) :=
  ⟨rfl, receive_three_outcomes (GCState.mk true WsReadyState.opened)
          TransportEvent.closeEv rfl⟩

/-- C4: for a `write_text` tool call (upstream open, client open), the
handler's effect list is exactly the acknowledgment Tool Response to the
upstream followed by the `tool_text` display event to the client — the
upstream receives the response for the call's id strictly before the
client receives the display event. -/
theorem write_text_ack_before_display (gc : GCState) (fc : FunctionCall) :
    gc.isOpen = true → fc.name = "write_text" →
    handleToolCall gc true fc =
      [Effect.toUpstream (UpstreamMsg.toolResponse [ackResponse fc]),
       Effect.toClient (ClientEvent.toolText (argText fc))] := by
  intro hopen hname
  simp [handleToolCall, toolHandlerFor, hname, sendJson, hopen]

theorem toolResponsesOf_append (a b : List Effect) :
    toolResponsesOf (a ++ b) = toolResponsesOf a ++ toolResponsesOf b := by
  simp [toolResponsesOf]

theorem toolResponsesOf_eq_nil {l : List Effect}
    (h : ∀ e ∈ l, respPart e = []) : toolResponsesOf l = [] := by
  induction l with
  | nil => rfl
  | cons hd tl ih =>
    have h1 := h hd (List.mem_cons_self hd tl)
    have h2 : toolResponsesOf tl = [] := ih fun e he => h e (List.mem_cons_of_mem hd he)
    simpa [toolResponsesOf, h1] using h2

theorem respPart_modelTurnEffects (clientOpen : Bool) (r : GeminiFrame) :
    ∀ e ∈ modelTurnEffects clientOpen r, respPart e = [] := by
  intro e he
  unfold modelTurnEffects at he
  cases hsc : r.serverContent with
  | none => simp only [hsc] at he; simp at he
  | some sc =>
    simp only [hsc] at he
    cases hmt : sc.modelTurn with
    | none => simp only [hmt] at he; simp at he
    | some parts =>
      simp only [hmt] at he
      rcases List.mem_append.mp he with h1 | h2
      · split at h1 <;> [skip; simp at h1]
        split at h1 <;> simp at h1
        subst h1; rfl
      · split at h2 <;> [skip; simp at h2]
        rcases List.mem_filterMap.mp h2 with ⟨p, _, hp⟩
        cases hpt : p.text with
        | none => simp [hpt] at hp
        | some t =>
          simp only [hpt] at hp
          by_cases ht : t = "" <;> simp [ht] at hp
          subst hp; rfl

theorem toolResponsesOf_handleToolCall (gc : GCState) (clientOpen : Bool)
    (fc : FunctionCall) (hopen : gc.isOpen = true) :
    toolResponsesOf (handleToolCall gc clientOpen fc) = [expectedResponse fc] := by
  unfold handleToolCall expectedResponse
  cases h : toolHandlerFor fc.name with
  | none => simp [sendJson, hopen, toolResponsesOf, respPart]
  | some th =>
    cases th <;> cases clientOpen <;>
      simp [sendJson, hopen, toolResponsesOf, respPart]

theorem toolResponsesOf_toolCallEffects (gc : GCState) (clientOpen : Bool)
    (hopen : gc.isOpen = true) (fcs : List FunctionCall) :
    toolResponsesOf ((fcs.map (handleToolCall gc clientOpen)).flatten) =
      fcs.map expectedResponse := by
  induction fcs with
  | nil => rfl
  | cons fc rest ih =>
    rw [List.map_cons, List.flatten_cons, toolResponsesOf_append,
      toolResponsesOf_handleToolCall gc clientOpen fc hopen, ih,
      List.map_cons, List.singleton_append]

/-- C3: for an upstream frame whose `toolCall.functionCalls` is the array
`fcs` (upstream open), processing the frame sends upstream exactly one
Tool Response per call, in array order: the acknowledgment for a
registered handler and, for a name with no registered handler, the
synthesized error response whose `error.message` is
"Tool not implemented: <name>" — no call is dropped. -/
theorem tool_calls_one_response_each (gc : GCState) (clientOpen : Bool)
    (r : GeminiFrame) (fcs : List FunctionCall) :
    gc.isOpen = true → r.toolCall = some fcs →
    toolResponsesOf (processFrame gc clientOpen r) = fcs.map expectedResponse ∧
    ∀ fc ∈ fcs, toolHandlerFor fc.name = none →
      expectedResponse fc =
        { id := fc.id, name := fc.name, rendered := true
          state := "continue conversation"
          error := some { message := "Tool not implemented: " ++ fc.name } } := by
  intro hopen htc
  constructor
  · unfold processFrame
    rw [toolResponsesOf_append]
    have htool : toolResponsesOf (toolCallEffects gc clientOpen r) =
        fcs.map expectedResponse := by
      unfold toolCallEffects
      rw [htc]
      exact toolResponsesOf_toolCallEffects gc clientOpen hopen fcs
    have hrest : toolResponsesOf
        (if frameInterrupted r then
          (if clientOpen then [Effect.toClient ClientEvent.serverContentInterrupted]
           else []) ++
          (match sendEnd gc none with
           | Except.ok m =>
             Effect.toUpstream m ::
               (if clientOpen then [Effect.toClient ClientEvent.turnCompleteEvent]
                else [])
           | Except.error _ => [])
        else
          modelTurnEffects clientOpen r ++
            (if r.turnComplete || scTurnComplete r then
              (if clientOpen then [Effect.toClient ClientEvent.turnCompleteEvent]
               else [])
            else [])) = [] := by
      apply toolResponsesOf_eq_nil
      intro e he
      split at he
      · rcases List.mem_append.mp he with h1 | h2
        · split at h1 <;> simp at h1
          subst h1; rfl
        · simp only [sendEnd, sendJson, hopen, if_pos] at h2
          rcases List.mem_cons.mp h2 with h3 | h4
          · subst h3; rfl
          · split at h4 <;> simp at h4
            subst h4; rfl
      · rcases List.mem_append.mp he with h1 | h2
        · exact respPart_modelTurnEffects clientOpen r e h1
        · split at h2 <;> [skip; simp at h2]
          split at h2 <;> simp at h2
          subst h2; rfl
    rw [htool, hrest, List.append_nil]
  · intro fc _ hn
    unfold expectedResponse unimplementedResponse
    rw [hn]

/-- Witness for C3: a frame carrying one registered and one unregistered
call yields exactly the two responses, in order, with the synthesized
error message on the second. -/
theorem tool_calls_one_response_each_witness :
    (GCState.mk true WsReadyState.opened).isOpen = true ∧
    toolResponsesOf (processFrame (GCState.mk true WsReadyState.opened) true
        { toolCall := some
            [{ id := "1", name := "write_text"
               args := some { text := some "ABC", reason := none } },
             { id := "2", name := "mystery", args := none }]
          serverContent := none, interrupted := false, turnComplete := false }) =
      [{ id := "1", name := "write_text"
         args := some { text := some "ABC", reason := none } },
       { id := "2", name := "mystery",
         args := none }].map expectedResponse :=
  ⟨rfl,
    (tool_calls_one_response_each (GCState.mk true WsReadyState.opened) true
      { toolCall := some
          [{ id := "1", name := "write_text"
             args := some { text := some "ABC", reason := none } },
           { id := "2", name := "mystery", args := none }]
        serverContent := none, interrupted := false, turnComplete := false }
      [{ id := "1", name := "write_text"
         args := some { text := some "ABC", reason := none } },
       { id := "2", name := "mystery", args := none }] rfl rfl).1⟩

/-- C2: for an upstream frame carrying the interruption flag (top level
or nested in its server content), with both transports open, the frame's
effect trace is exactly its tool-call effects followed by the
interruption event to the client, the forced `sendEnd()` envelope
upstream, and the explicit `turn_complete` event to the client — nothing
else of the frame is processed, and on the client-visible subsequence
`interrupted` occurs strictly before the `turn_complete` of the same
frame. -/
theorem interruption_event_ordering (gc : GCState) (r : GeminiFrame) :
    gc.isOpen = true → frameInterrupted r = true →
    processFrame gc true r =
      toolCallEffects gc true r ++
        [Effect.toClient ClientEvent.serverContentInterrupted,
         Effect.toUpstream (UpstreamMsg.clientContent (defaultTurn true)),
         Effect.toClient ClientEvent.turnCompleteEvent] ∧
    toClientTrace (processFrame gc true r) =
      toClientTrace (toolCallEffects gc true r) ++
        [ClientEvent.serverContentInterrupted, ClientEvent.turnCompleteEvent] := by
  intro hopen hint
  have heq : processFrame gc true r =
      toolCallEffects gc true r ++
        [Effect.toClient ClientEvent.serverContentInterrupted,
         Effect.toUpstream (UpstreamMsg.clientContent (defaultTurn true)),
         Effect.toClient ClientEvent.turnCompleteEvent] := by
    unfold processFrame
    rw [hint]
    simp [sendEnd, sendJson, hopen]
  refine ⟨heq, ?_⟩
  rw [heq]
  simp [toClientTrace]

/-- Witness for C2 at a concrete interrupted frame with no tool calls. -/
theorem interruption_event_ordering_witness :
    (GCState.mk true WsReadyState.opened).isOpen = true ∧
    processFrame (GCState.mk true WsReadyState.opened) true
        { toolCall := none
          serverContent := some
            { interrupted := true, modelTurn := none, turnComplete := false }
          interrupted := false, turnComplete := false } =
      toolCallEffects (GCState.mk true WsReadyState.opened) true
          { toolCall := none
            serverContent := some
              { interrupted := true, modelTurn := none, turnComplete := false }
            interrupted := false, turnComplete := false } ++
        [Effect.toClient ClientEvent.serverContentInterrupted,
         Effect.toUpstream (UpstreamMsg.clientContent (defaultTurn true)),
         Effect.toClient ClientEvent.turnCompleteEvent] :=
  ⟨rfl,
    (interruption_event_ordering (GCState.mk true WsReadyState.opened)
      { toolCall := none
        serverContent := some
          { interrupted := true, modelTurn := none, turnComplete := false }
        interrupted := false, turnComplete := false } rfl rfl).1⟩

/-- Witness for C4 at the concrete call
`{id:"1", name:"write_text", args:{text:"ABC"}}`. -/
theorem write_text_ack_before_display_witness :
    (GCState.mk true WsReadyState.opened).isOpen = true ∧
    handleToolCall (GCState.mk true WsReadyState.opened) true
        { id := "1", name := "write_text"
          args := some { text := some "ABC", reason := none } } =
      [Effect.toUpstream (UpstreamMsg.toolResponse
         [ackResponse { id := "1", name := "write_text"
                        args := some { text := some "ABC", reason := none } }]),
       Effect.toClient (ClientEvent.toolText "ABC")] :=
  ⟨rfl, write_text_ack_before_display (GCState.mk true WsReadyState.opened)
          { id := "1", name := "write_text"
            args := some { text := some "ABC", reason := none } } rfl rfl⟩

end Relay

namespace Audio

/-- C7: (a) when the stall-detection tick fires on a playing,
non-disposed streamer whose queue is non-empty and whose last
playback-start timestamp lies more than one second in the past, it
forces a manual advance: the head segment of the queue is dequeued,
started as the new current source, the playback-start timestamp is
refreshed and the timer is re-armed; (b) in every case the tick leaves
the stall timer armed exactly when the streamer is still playing and not
disposed. -/
theorem stall_tick_forces_advance :
    (∀ (st : Streamer) (now : ℚ) (b : List ℚ) (rest : List (List ℚ)),
       st.isDisposed = false → st.isPlaying = true →
       st.audioQueue = b :: rest → now - st.lastPlaybackTime > 1 →
       checkTick st now =
         ({ st with timeoutArmed := true, lastPlaybackTime := now
                    audioQueue := rest, currentSource := some b },
          [AEffect.startedSource b, AEffect.timerArmed])) ∧
    (∀ (st : Streamer) (now : ℚ),
       (checkTick st now).1.timeoutArmed =
         ((checkTick st now).1.isPlaying && !(checkTick st now).1.isDisposed)) := by
  constructor
  · intro st now b rest hd hp hq hgt
    simp [checkTick, playNextBuffer, armCheck, hd, hp, hq, hgt]
  · intro st now
    cases hd : st.isDisposed <;>
      cases hp : st.isPlaying <;>
        rcases hq : st.audioQueue with _ | ⟨b, rest⟩ <;>
          by_cases hgt : now - st.lastPlaybackTime > 1 <;>
            simp [checkTick, playNextBuffer, armCheck, hd, hp, hq, hgt]

/-- Witness for C7: a concrete tick with the timestamp 3 seconds past
the last playback start advances to the queue's head segment. -/
theorem stall_tick_forces_advance_witness :
    checkTick
        (Streamer.mk [[(1 : ℚ)/2], [(1 : ℚ)/4]] true none 1 true true 0 false
          false true true) 3 =
      (Streamer.mk [[(1 : ℚ)/4]] true (some [(1 : ℚ)/2]) 1 true true 3 false
        false true true,
       [AEffect.startedSource [(1 : ℚ)/2], AEffect.timerArmed]) :=
  stall_tick_forces_advance.1
    (Streamer.mk [[(1 : ℚ)/2], [(1 : ℚ)/4]] true none 1 true true 0 false
      false true true) 3 [(1 : ℚ)/2] [[(1 : ℚ)/4]] rfl rfl rfl (by norm_num)

/-- C8: after `dispose()`, every subsequent call — `addPCM16`, `stop`,
`resume`, `dispose` itself, and even a stray stall tick — leaves the
instance's state unchanged and produces no observable effect: no
playback starts, no user callback fires (dispose cleared them), and no
timer is armed. -/
theorem dispose_makes_inert (st : Streamer) (c : Option (List ℤ)) (now : ℚ)
    (h : st.isDisposed = false) :
    addPCM16 (dispose st).1 c now = ((dispose st).1, []) ∧
    stop (dispose st).1 = ((dispose st).1, []) ∧
    resume (dispose st).1 = ((dispose st).1, []) ∧
    dispose (dispose st).1 = ((dispose st).1, []) ∧
    checkTick (dispose st).1 now = ((dispose st).1, []) := by
  have hd : (dispose st).1 =
      Streamer.mk [] false none 0 false false st.lastPlaybackTime true
        st.ctxSuspended false false := by
    simp [dispose, stop, h]
  rw [hd]
  refine ⟨?_, ?_, ?_, ?_, ?_⟩
  · cases c <;> simp [addPCM16]
  · simp [stop]
  · simp [resume]
  · simp [dispose]
  · simp [checkTick, playNextBuffer, armCheck]

/-- Witness for C8 at a concrete streamer mid-playback. -/
theorem dispose_makes_inert_witness :
    addPCM16
        (dispose (Streamer.mk [[(1 : ℚ)/2]] true none 1 true true 0 false
          false true true)).1 (some [1]) 2 =
      ((dispose (Streamer.mk [[(1 : ℚ)/2]] true none 1 true true 0 false
          false true true)).1, []) ∧
    stop (dispose (Streamer.mk [[(1 : ℚ)/2]] true none 1 true true 0 false
          false true true)).1 =
      ((dispose (Streamer.mk [[(1 : ℚ)/2]] true none 1 true true 0 false
          false true true)).1, []) ∧
    resume (dispose (Streamer.mk [[(1 : ℚ)/2]] true none 1 true true 0 false
          false true true)).1 =
      ((dispose (Streamer.mk [[(1 : ℚ)/2]] true none 1 true true 0 false
          false true true)).1, []) ∧
    dispose (dispose (Streamer.mk [[(1 : ℚ)/2]] true none 1 true true 0 false
          false true true)).1 =
      ((dispose (Streamer.mk [[(1 : ℚ)/2]] true none 1 true true 0 false
          false true true)).1, []) ∧
    checkTick (dispose (Streamer.mk [[(1 : ℚ)/2]] true none 1 true true 0 false
          false true true)).1 2 =
      ((dispose (Streamer.mk [[(1 : ℚ)/2]] true none 1 true true 0 false
          false true true)).1, []) :=
  dispose_makes_inert
    (Streamer.mk [[(1 : ℚ)/2]] true none 1 true true 0 false false true true)
    (some [1]) 2 rfl

/-- C10: `addPCM16` on a non-disposed streamer resets the output gain to
1 and resumes a suspended context while enqueueing the converted
segment: if playback was running the segment is appended to the queue,
and otherwise playback (re)starts immediately from the head of the
extended queue — so segments enqueued after a `stop()` (which set the
gain to 0) are audible again even when `resume()` is never called. -/
theorem addPCM16_resets_gain (st : Streamer) (c : List ℤ) (now : ℚ)
    (h : st.isDisposed = false) :
    (addPCM16 st (some c) now).1.gain = 1 ∧
    (addPCM16 st (some c) now).1.ctxSuspended = false ∧
    (st.isPlaying = true →
      (addPCM16 st (some c) now).1.audioQueue =
        st.audioQueue ++ [pcm16ToFloat c]) ∧
    (st.isPlaying = false →
      (addPCM16 st (some c) now).1.isPlaying = true ∧
      (addPCM16 st (some c) now).1.currentSource =
        (st.audioQueue ++ [pcm16ToFloat c]).head? ∧
      (addPCM16 st (some c) now).1.audioQueue =
        (st.audioQueue ++ [pcm16ToFloat c]).tail) := by
  cases hp : st.isPlaying <;>
    rcases hq : st.audioQueue with _ | ⟨bq, restq⟩ <;>
      simp_all [addPCM16, playNextBuffer, armCheck, h]

/-- Witness for C10: a chunk added to a stopped (gain-0, non-playing)
streamer ends with gain 1 and starts playing the new segment. -/
theorem addPCM16_resets_gain_witness :
    (addPCM16 (Streamer.mk [] false none 0 true false 0 false false true true)
        (some [16384]) 2).1.gain = 1 ∧
    (addPCM16 (Streamer.mk [] false none 0 true false 0 false false true true)
        (some [16384]) 2).1.ctxSuspended = false ∧
    ((Streamer.mk [] false none 0 true false 0 false false true true :
        Streamer).isPlaying = true →
      (addPCM16 (Streamer.mk [] false none 0 true false 0 false false true true)
          (some [16384]) 2).1.audioQueue = [] ++ [pcm16ToFloat [16384]]) ∧
    ((Streamer.mk [] false none 0 true false 0 false false true true :
        Streamer).isPlaying = false →
      (addPCM16 (Streamer.mk [] false none 0 true false 0 false false true true)
          (some [16384]) 2).1.isPlaying = true ∧
      (addPCM16 (Streamer.mk [] false none 0 true false 0 false false true true)
          (some [16384]) 2).1.currentSource =
        ([] ++ [pcm16ToFloat [16384]]).head? ∧
      (addPCM16 (Streamer.mk [] false none 0 true false 0 false false true true)
          (some [16384]) 2).1.audioQueue =
        ([] ++ [pcm16ToFloat [16384]]).tail) :=
  addPCM16_resets_gain
    (Streamer.mk [] false none 0 true false 0 false false true true)
    [16384] 2 rfl

end Audio
